import Mathlib

/-!
Verification development for the aclarador-extension analysis pipeline
(`lib/agents.js`): a shallow embedding of the six agent stages
(Analyzer, Rewriter, Grammar, Style, SEO, Validator) and of the
`AgentCoordinator.processText` orchestration, together with theorems about
the properties stated in the specification.

Modelling conventions:
* JavaScript strings are Lean `String`s (ASCII-faithful; `.length`,
  `toLowerCase`, `trim` agree on the ASCII fragment used here).
* JavaScript numbers are `ℚ`; `toFixed(k)` becomes rounding to `k`
  decimal places (`round2` / `round1`).
* `text.split(/\s+/)` and `text.split(/[.!?]+/)` keep the empty boundary
  fields that the JS engine produces, exactly as in the source
  (`jsSplit` below).
* The Groq HTTP call of the Rewriter is the only external effect; it is
  an oracle parameter (`ApiResp`): either a non-2xx failure or a success
  carrying the completion text.
* The `onProgress` callback is modelled as a state-threading function
  that may fail (`Except`), so that a throwing callback is expressible.
-/

/-- JS `\s` on the ASCII fragment: the whitespace test used by
`split(/\s+/)` and `String.prototype.trim`. -/
def isWsChar (c : Char) : Bool := c.isWhitespace

/-- Sentence-terminal characters of `split(/[.!?]+/)`. -/
def isTermChar (c : Char) : Bool := c = ('.') || c = ('!') || c = ('?')

/-- `String.prototype.trim` on the ASCII fragment: strip leading and
trailing whitespace. -/
def jsTrim (s : String) : String :=
  String.mk (((s.data.dropWhile isWsChar).reverse.dropWhile isWsChar).reverse)

/-- `String.prototype.toLowerCase` on the ASCII fragment. -/
def lowerStr (s : String) : String := String.mk (s.data.map Char.toLower)

/-- JS `\w` word character (ASCII letters, digits, underscore). -/
def isWordChar (c : Char) : Bool := c.isAlphanum || c = ('_')

/-- Worker for `jsSplit`: `some cur` means a field is being read (in
reverse), `none` means we are inside a separator run.  Reproduces the JS
behaviour of `String.prototype.split` with a `/X+/` regex: runs of
separator characters collapse, and an empty field is produced at the
start or end of the string when it begins or ends with a separator. -/
def jsSplitAux (p : Char → Bool) : List Char → Option (List Char) → List String
  | [], some cur => [String.mk cur.reverse]
  | [], none => [String.mk []]
  | c :: rest, some cur =>
    if p c then String.mk cur.reverse :: jsSplitAux p rest none
    else jsSplitAux p rest (some (c :: cur))
  | c :: rest, none =>
    if p c then jsSplitAux p rest none
    else jsSplitAux p rest (some [c])

/-- `s.split(/X+/)` for the character class decided by `p`. -/
def jsSplit (p : Char → Bool) (s : String) : List String :=
  jsSplitAux p s.data (some [])

/-- `s.split(/\s+/).length` — the word count used without trimming
(`_classifyText`, `_identifyImprovements`, `_calculateReadability`,
`_assessClarityBalance`); counts empty boundary fields. -/
def wordCountRaw (s : String) : Nat := (jsSplit isWsChar s).length

/-- `s.trim().split(/\s+/).length` — the word count used with trimming
(`_detectIssues`, `_findStyleIssues`, `_validateImprovements`,
`_calculateQualityScore`). -/
def wordCountTrim (s : String) : Nat := (jsSplit isWsChar (jsTrim s)).length

/-- `text.split(/[.!?]+/).filter(s => s.trim())`. -/
def splitSentences (s : String) : List String :=
  (jsSplit isTermChar s).filter (fun x => ¬ jsTrim x = (""))

/-- Mean raw words per sentence:
`sentences.reduce((sum, s) => sum + s.split(/\s+/).length, 0) / sentences.length`. -/
def avgWordsRaw (ss : List String) : ℚ :=
  ((ss.map wordCountRaw).sum : ℚ) / (ss.length : ℚ)

/-- The same mean but with the `(length || 1)` guard of
`_identifyImprovements`. -/
def avgOr1 (ss : List String) : ℚ :=
  ((ss.map wordCountRaw).sum : ℚ) / (if ss.length = 0 then 1 else (ss.length : ℚ))

/-- `parseFloat(x.toFixed(2))`: rounding to two decimal places. -/
def round2 (q : ℚ) : ℚ := ((round (q * 100) : ℤ) : ℚ) / 100

/-- `x.toFixed(1)`: rounding to one decimal place. -/
def round1 (q : ℚ) : ℚ := ((round (q * 10) : ℤ) : ℚ) / 10

/-- `List.isPrefixOf` specialised check that `sub` occurs somewhere in
`l` — the model of `String.prototype.includes`. -/
def hasSubList (sub : List Char) : List Char → Bool
  | [] => sub.isEmpty
  | c :: rest => sub.isPrefixOf (c :: rest) || hasSubList sub rest

/-- `s.includes(sub)`. -/
def jsIncludes (s sub : String) : Bool := hasSubList sub.data s.data

/-- Splits a character list into maximal runs, each tagged with whether
it is a run of word characters.  Used to model `\b`-anchored regexes. -/
def runsAux : List Char → Bool → List Char → List (Bool × String)
  | [], w, cur => [(w, String.mk cur.reverse)]
  | c :: rest, w, cur =>
    if isWordChar c = w then runsAux rest w (c :: cur)
    else (w, String.mk cur.reverse) :: runsAux rest (isWordChar c) [c]

/-- Maximal word/non-word runs of a character list. -/
def tokenizeRuns : List Char → List (Bool × String)
  | [] => []
  | c :: rest => runsAux rest (isWordChar c) [c]

/-- Turns the run list into `(word, following separator)` pairs; a word
at the end of the text gets an empty separator, and a leading separator
(before the first word) is dropped. -/
def runsToPairs : List (Bool × String) → List (String × String)
  | [] => []
  | (false, _) :: rest => runsToPairs rest
  | (true, w) :: (false, s) :: rest => (w, s) :: runsToPairs rest
  | (true, w) :: rest => (w, ("")) :: runsToPairs rest

/-- The `(word, separator)` view of a string, for `\b`-anchored
matching. -/
def wordSeps (s : String) : List (String × String) := runsToPairs (tokenizeRuns s.data)

/-- The maximal `\w+` tokens of a string (`text.match(/\b\w{13,}\b/g)`
is the length-filtered version of this list). -/
def wordsOf (s : String) : List String := (wordSeps s).map Prod.fst

/-- A separator that `\s+` can match: non-empty and all whitespace. -/
def wsOnly (s : String) : Bool :=
  if s = ("") then false else s.data.all isWsChar

/-- Scanner for `text.match(/\b(\w+)\s+\1\b/gi)`: two consecutive word
tokens separated by pure whitespace and equal up to case.  After a
match the engine resumes after the second word (no overlap). -/
def scanRepeated : List (String × String) → List String
  | (w1, s1) :: (w2, s2) :: rest =>
    if wsOnly s1 = true ∧ lowerStr w1 = lowerStr w2 then
      (w1 ++ s1 ++ w2) :: scanRepeated rest
    else scanRepeated ((w2, s2) :: rest)
  | _ => []

/-- All matches of the repeated-adjacent-word regex in `text`. -/
def findRepeatedWords (text : String) : List String := scanRepeated (wordSeps text)

/-- Scanner for `/\b(fue|fueron|ha sido|han sido)\b/gi` as a boolean:
a whole word `fue`/`fueron`, or `ha`/`han` followed by exactly one
space and the whole word `sido`. -/
def passiveScan : List (String × String) → Bool
  | (w1, s1) :: (w2, s2) :: rest =>
    if lowerStr w1 = ("fue") ∨ lowerStr w1 = ("fueron") then true
    else if (lowerStr w1 = ("ha") ∨ lowerStr w1 = ("han")) ∧ s1 = (" ") ∧ lowerStr w2 = ("sido") then true
    else passiveScan ((w2, s2) :: rest)
  | [(w1, _)] => lowerStr w1 = ("fue") ∨ lowerStr w1 = ("fueron")
  | [] => false

/-- `text.match(/\b(fue|fueron|ha sido|han sido)\b/gi)` truthiness. -/
def hasPassiveMarker (text : String) : Bool := passiveScan (wordSeps text)

/-- `context`: the bundle built by `processText` and passed to every
stage (`metadata` keeps only the two fields the agents read). -/
structure Metadata where
  title : Option String
  metaDescription : Option String
deriving DecidableEq

structure Context where
  apiKey : Option String
  isWebPage : Bool
  metadata : Metadata
deriving DecidableEq

/-- One structured issue/recommendation record (a `Finding`): one
constructor per object shape pushed by the agents. -/
inductive Finding where
  | sentenceLength (sentence : Nat) (words : Nat) (text : String)
  | complexVocab (count : Nat) (examples : List String)
  | structureChange (change : String) (reason : String)
  | lengthReduction (origAvg : ℚ) (rewAvg : ℚ) (reason : String)
  | grammarRep (issue : String) (examples : List String) (recommendation : String)
  | styleLong (issue : String) (sentence : Nat) (words : Nat) (recommendation : String)
  | stylePassive (issue : String) (recommendation : String)
  | seoFinding (element : String) (recommendation : String) (reason : String)
deriving DecidableEq

/-- `AnalyzerAgent._classifyText`. -/
def classifyText (text : String) (ctx : Context) : String :=
  if wordCountRaw text < 100 then ("short")
  else if ctx.isWebPage then ("web")
  else if jsIncludes text ("meta") || jsIncludes text ("título") || jsIncludes text ("SEO") then ("web")
  else ("document")

/-- `AnalyzerAgent._detectIssues`. -/
def analyzerDetectIssues (text : String) : List Finding :=
  let sentences := splitSentences text
  let sentenceIssues := sentences.enum.filterMap fun p =>
    if wordCountTrim p.2 > 30 then
      some (Finding.sentenceLength (p.1 + 1) (wordCountTrim p.2) (jsTrim p.2))
    else none
  let longWords := (wordsOf text).filter (fun w => w.length ≥ 13)
  sentenceIssues ++
    (if longWords.length > 0 then [Finding.complexVocab longWords.length (longWords.take 3)] else [])

/-- `AnalyzerAgent._recommendAgents`. -/
def recommendAgents (classification : String) (issues : List Finding) : List String :=
  let base := [("grammar"), ("validator")]
  let base := if issues.length > 2 ∨ classification = ("document") then ("style") :: base else base
  if classification = ("web") then base ++ [("seo")] else base

/-- `AnalyzerAgent._assessSeverity`. -/
def assessSeverity (issues : List Finding) : String :=
  if issues.length ≥ 3 then ("high")
  else if issues.length ≥ 2 then ("medium")
  else ("low")

structure AnalysisResult where
  agent : String
  classification : String
  issues : List Finding
  recommendedAgents : List String
  severity : String
deriving DecidableEq

/-- `AnalyzerAgent.analyze`. -/
def analyzerAnalyze (text : String) (ctx : Context) : AnalysisResult :=
  let classification := classifyText text ctx
  let issues := analyzerDetectIssues text
  { agent := ("Analyzer"), classification := classification, issues := issues,
    recommendedAgents := recommendAgents classification issues,
    severity := assessSeverity issues }

/-- `RewriterAgent._detectIssues`. -/
def rewriterDetectIssues (text : String) : List String :=
  let sentences := splitSentences text
  (if sentences.any (fun s => wordCountTrim s > 30) then [("long_sentences")] else []) ++
    (if hasPassiveMarker text then [("passive_voice")] else []) ++
      (if (wordsOf text).any (fun w => w.length ≥ 13) then [("complex_vocabulary")] else [])

/-- `RewriterAgent._identifyImprovements`: post-hoc comparison of the
original and the rewritten text.  The `lengthReduction` finding carries
the two means rounded to one decimal place, the payload of
`` `Reducción promedio: ${origAvg.toFixed(1)} → ${rewAvg.toFixed(1)} palabras` ``. -/
def identifyImprovements (original rewritten : String) : List Finding :=
  let origSentences := splitSentences original
  let rewritSentences := splitSentences rewritten
  let structural : List Finding :=
    if rewritSentences.length > origSentences.length then
      [Finding.structureChange ("Oraciones divididas para mayor claridad")
        ("Una idea por oración (máximo 30 palabras)")]
    else []
  let origAvg := avgOr1 origSentences
  let rewAvg := avgOr1 rewritSentences
  let lengthF : List Finding :=
    if rewAvg < origAvg - 3 then
      [Finding.lengthReduction (round1 origAvg) (round1 rewAvg)
        ("Mejor legibilidad con oraciones más cortas")]
    else []
  structural ++ lengthF

structure RewriteOutput where
  agent : String
  originalText : String
  rewrittenText : String
  improvements : List Finding
  issuesDetected : List String
deriving DecidableEq

/-- The success-path result record of `RewriterAgent.analyze`, given the
completion text returned by the service. -/
def rewriterOutput (text content : String) : RewriteOutput :=
  { agent := ("Rewriter"), originalText := text, rewrittenText := content,
    improvements := identifyImprovements text content,
    issuesDetected := rewriterDetectIssues text }

/-- `GrammarAgent._findGrammarIssues`. -/
def findGrammarIssues (text : String) : List Finding :=
  let repeatedWords := findRepeatedWords text
  if repeatedWords.length > 0 then
    [Finding.grammarRep ("Palabras repetidas") (repeatedWords.take 3)
      ("Eliminar repeticiones innecesarias")]
  else []

structure GrammarOutput where
  agent : String
  issues : List Finding
  correctedText : String
deriving DecidableEq

/-- `GrammarAgent.analyze`: note `correctedText` is the input text. -/
def grammarAnalyze (text : String) (_ctx : Context) : GrammarOutput :=
  { agent := ("Grammar"), issues := findGrammarIssues text, correctedText := text }

/-- `StyleAgent._findStyleIssues`. -/
def findStyleIssues (text : String) : List Finding :=
  let sentences := splitSentences text
  let lengthIssues := sentences.enum.filterMap fun p =>
    if wordCountTrim p.2 > 30 then
      some (Finding.styleLong ("Oración demasiado larga") (p.1 + 1) (wordCountTrim p.2)
        ("Dividir en oraciones más cortas"))
    else none
  lengthIssues ++
    (if hasPassiveMarker text then
      [Finding.stylePassive ("Posible voz pasiva") ("Usar voz activa para mayor claridad")]
    else [])

/-- `StyleAgent._calculateReadability`: clamped to `[0,1]` and rounded
to two decimals. -/
def calculateReadability (text : String) : ℚ :=
  let sentences := splitSentences text
  if sentences.length = 0 then 0
  else round2 (max 0 (min 1 (1 - |avgWordsRaw sentences - 15| / 30)))

structure StyleOutput where
  agent : String
  styleIssues : List Finding
  readabilityScore : ℚ
deriving DecidableEq

/-- `StyleAgent.analyze`. -/
def styleAnalyze (text : String) (_ctx : Context) : StyleOutput :=
  { agent := ("Style"), styleIssues := findStyleIssues text,
    readabilityScore := calculateReadability text }

/-- Insertion-ordered word-frequency accumulator (`wordFreq` object of
`_analyzeSEOElements`; JS object keys keep insertion order for these
non-numeric words). -/
def bumpFreq (acc : List (String × Nat)) (w : String) : List (String × Nat) :=
  if acc.any (fun p => p.1 = w) then
    acc.map (fun p => if p.1 = w then (p.1, p.2 + 1) else p)
  else acc ++ [(w, 1)]

def wordFreq (ws : List String) : List (String × Nat) := ws.foldl bumpFreq []

/-- The words repeated more than three times among the lowercased
words of length `> 4`. -/
def repeatedKeywords (text : String) : List String :=
  let words := (jsSplit isWsChar (lowerStr text)).filter (fun w => w.length > 4)
  ((wordFreq words).filter (fun p => p.2 > 3)).map Prod.fst

/-- `SEOAgent._analyzeSEOElements`. -/
def analyzeSEOElements (text : String) (ctx : Context) : List Finding :=
  let metadata := ctx.metadata
  let titleRecs : List Finding :=
    match metadata.title with
    | Option.none => []
    | Option.some t =>
      if ¬ t = ("") ∧ t.length > 60 then
        [Finding.seoFinding ("title")
          (("Título demasiado largo (") ++ toString t.length ++ (" caracteres). Máximo recomendado: 60."))
          ("Los títulos largos se cortan en resultados de búsqueda")]
      else []
  let descRecs : List Finding :=
    match metadata.metaDescription with
    | Option.none =>
      [Finding.seoFinding ("meta_description") ("Falta la meta descripción")
        ("La meta descripción mejora la visibilidad en buscadores")]
    | Option.some d =>
      if d = ("") then
        [Finding.seoFinding ("meta_description") ("Falta la meta descripción")
          ("La meta descripción mejora la visibilidad en buscadores")]
      else if d.length > 160 then
        [Finding.seoFinding ("meta_description")
          (("Meta descripción demasiado larga (") ++ toString d.length ++ (" caracteres). Máximo: 160."))
          ("Las descripciones largas se truncan en resultados")]
      else []
  let keywords := repeatedKeywords text
  let keywordRecs : List Finding :=
    if keywords.length > 0 then
      [Finding.seoFinding ("keywords")
        (("Palabras clave frecuentes: ") ++ String.intercalate (", ") (keywords.take 5))
        ("Equilibrar densidad de palabras clave con variedad")]
    else []
  titleRecs ++ descRecs ++ keywordRecs

structure Balance where
  seoScore : ℚ
  clarityScore : ℚ
  balanceScore : ℚ
deriving DecidableEq

/-- `SEOAgent._assessClarityBalance`: fixed `seoScore`/`balanceScore`,
clarity score clamped below at `0` (`Math.max(0, ...)`) but not above,
then rounded to two decimals. -/
def assessClarityBalance (text : String) : Balance :=
  let sentences := splitSentences text
  if sentences.length = 0 then { seoScore := 0, clarityScore := 0, balanceScore := 0 }
  else
    { seoScore := 7/10,
      clarityScore := round2 (max 0 (1 - (avgWordsRaw sentences - 15) / 30)),
      balanceScore := 13/20 }

structure SEOOutput where
  agent : String
  seoRecommendations : List Finding
  clarityBalance : Balance
deriving DecidableEq

/-- `SEOAgent.analyze`. -/
def seoAnalyze (text : String) (ctx : Context) : SEOOutput :=
  { agent := ("SEO"), seoRecommendations := analyzeSEOElements text ctx,
    clarityBalance := assessClarityBalance text }

/-- One entry of `ValidatorAgent._validateImprovements`. -/
inductive Validation where
  | warning (message : String) (recommendation : String)
  | success (message : String)
deriving DecidableEq

/-- `ValidatorAgent._validateImprovements`. -/
def validateImprovements (text : String) : List Validation :=
  (splitSentences text).enum.filterMap fun p =>
    let words := wordCountTrim p.2
    if words > 30 then
      some (Validation.warning
        (("Oración ") ++ toString (p.1 + 1) ++ (" excede 30 palabras (") ++ toString words ++ (")"))
        ("Considerar dividir la oración"))
    else if 15 ≤ words ∧ words ≤ 25 then
      some (Validation.success
        (("Oración ") ++ toString (p.1 + 1) ++ (" tiene longitud óptima (") ++ toString words ++ (" palabras)")))
    else none

/-- The per-sentence contribution of `_calculateQualityScore`, exactly
as the source nests its conditionals. -/
def qualityContrib (words : Nat) : ℚ :=
  if 10 ≤ words ∧ words ≤ 30 then
    (if 15 ≤ words ∧ words ≤ 25 then 1 else 7/10)
  else 3/10

/-- `ValidatorAgent._calculateQualityScore`. -/
def calculateQualityScore (text : String) : ℚ :=
  let sentences := splitSentences text
  if sentences.length = 0 then 0
  else round2 (((sentences.map (fun s => qualityContrib (wordCountTrim s))).sum) / (sentences.length : ℚ))

/-- `ValidatorAgent._checkCompliance`: always exactly four
`{criterion, passed}` entries. -/
def checkCompliance (text : String) : List (String × Bool) :=
  let sentences := splitSentences text
  let avgLength : ℚ := if sentences.length > 0 then avgWordsRaw sentences else 0
  [ (("Oraciones completas"), decide (sentences.length > 0)),
    (("Longitud promedio adecuada"), decide (avgLength ≤ 30)),
    (("Puntuación apropiada"), jsIncludes text (".") || jsIncludes text ("!") || jsIncludes text ("?")),
    (("Contenido no vacío"), decide ((jsTrim text).length > 0)) ]

structure ValidatorOutput where
  agent : String
  validation : List Validation
  qualityScore : ℚ
  compliance : List (String × Bool)
deriving DecidableEq

/-- `ValidatorAgent.analyze`. -/
def validatorAnalyze (text : String) (_ctx : Context) : ValidatorOutput :=
  { agent := ("Validator"), validation := validateImprovements text,
    qualityScore := calculateQualityScore text, compliance := checkCompliance text }

/-- The outcome of the Groq chat-completion request issued by the
Rewriter: a non-2xx response (status and best-effort body) or a 2xx
response whose first choice's message content is `content`. -/
inductive ApiResp where
  | failure (status : Nat) (body : String)
  | success (content : String)
deriving DecidableEq

/-- The errors `RewriterAgent.analyze` can throw. -/
inductive RewriteErr where
  | missingKey
  | apiError (status : Nat) (body : String)
deriving DecidableEq

/-- A failure of `processText`: a Rewriter error, or an exception
raised by the `onProgress` callback (which the coordinator does not
catch). -/
inductive PipeErr (E : Type) where
  | rewrite (e : RewriteErr)
  | progress (e : E)
deriving DecidableEq

/-- `RewriterAgent.analyze`: throws without a truthy API key, fails on
a non-2xx response, and otherwise returns the success record. -/
def rewriterAnalyze (api : ApiResp) (text : String) (ctx : Context) :
    Except RewriteErr RewriteOutput :=
  match ctx.apiKey with
  | Option.none => Except.error RewriteErr.missingKey
  | Option.some k =>
    if k = ("") then Except.error RewriteErr.missingKey
    else
      match api with
      | ApiResp.failure status body => Except.error (RewriteErr.apiError status body)
      | ApiResp.success content => Except.ok (rewriterOutput text content)

/-- The `options` argument of `processText` (the `onProgress` callback
is a separate parameter of the model). -/
structure Options where
  apiKey : Option String
  metadata : Metadata
deriving DecidableEq

/-- The `context` record that `processText` builds: `isWebPage` is
hard-coded to `true`. -/
def mkContext (opts : Options) : Context :=
  { apiKey := opts.apiKey, isWebPage := true, metadata := opts.metadata }

/-- The final report assembled by `processText`. -/
structure Results where
  originalText : String
  analysis : AnalysisResult
  rewriting : RewriteOutput
  grammar : GrammarOutput
  style : StyleOutput
  seo : SEOOutput
  validation : ValidatorOutput
  finalText : String
  improvements : List Finding
deriving DecidableEq

/-- `AgentCoordinator.processText`.  `cb` is the `onProgress` callback
with an explicit state `σ` (so that the sequence of invocations is
observable) and an error type `E` (so that a throwing callback is
expressible); each invocation is sequenced exactly where the source
invokes `onProgress`, with the source's literal stage names and status
messages, and is *not* wrapped in any exception handler. -/
def processText {σ E : Type} (api : ApiResp) (text : String) (opts : Options)
    (cb : σ → String → String → Except E σ) (s0 : σ) :
    Except (PipeErr E) (Results × σ) :=
  let context := mkContext opts
  match cb s0 ("analyzer") ("Analizando texto...") with
  | Except.error e => Except.error (PipeErr.progress e)
  | Except.ok s1 =>
    let analysis := analyzerAnalyze text context
    match cb s1 ("rewriter") ("Reescribiendo con IA...") with
    | Except.error e => Except.error (PipeErr.progress e)
    | Except.ok s2 =>
      match rewriterAnalyze api text context with
      | Except.error re => Except.error (PipeErr.rewrite re)
      | Except.ok rewriting =>
        let currentText := if rewriting.rewrittenText = ("") then text else rewriting.rewrittenText
        let imps1 := rewriting.improvements
        match cb s2 ("grammar") ("Revisando gramática...") with
        | Except.error e => Except.error (PipeErr.progress e)
        | Except.ok s3 =>
          let grammar := grammarAnalyze currentText context
          let imps2 := if grammar.issues.length > 0 then imps1 ++ grammar.issues else imps1
          match cb s3 ("style") ("Analizando estilo...") with
          | Except.error e => Except.error (PipeErr.progress e)
          | Except.ok s4 =>
            let style := styleAnalyze currentText context
            let imps3 := if style.styleIssues.length > 0 then imps2 ++ style.styleIssues else imps2
            match cb s4 ("seo") ("Evaluando SEO...") with
            | Except.error e => Except.error (PipeErr.progress e)
            | Except.ok s5 =>
              let seo := seoAnalyze currentText context
              let imps4 := imps3 ++ seo.seoRecommendations
              match cb s5 ("validator") ("Validando resultados...") with
              | Except.error e => Except.error (PipeErr.progress e)
              | Except.ok s6 =>
                let validation := validatorAnalyze currentText context
                match cb s6 ("done") ("Análisis completado") with
                | Except.error e => Except.error (PipeErr.progress e)
                | Except.ok s7 =>
                  Except.ok
                    ({ originalText := text, analysis := analysis, rewriting := rewriting,
                       grammar := grammar, style := style, seo := seo,
                       validation := validation, finalText := currentText,
                       improvements := imps4 }, s7)

/-- The pure report of a completing `processText` run (the callback
does not influence any field): the success-path record of the
definition above, as a function of the completion text. -/
def buildResults (text : String) (opts : Options) (content : String) : Results :=
  let context := mkContext opts
  let analysis := analyzerAnalyze text context
  let rewriting := rewriterOutput text content
  let currentText := if rewriting.rewrittenText = ("") then text else rewriting.rewrittenText
  let imps1 := rewriting.improvements
  let grammar := grammarAnalyze currentText context
  let imps2 := if grammar.issues.length > 0 then imps1 ++ grammar.issues else imps1
  let style := styleAnalyze currentText context
  let imps3 := if style.styleIssues.length > 0 then imps2 ++ style.styleIssues else imps2
  let seo := seoAnalyze currentText context
  let imps4 := imps3 ++ seo.seoRecommendations
  let validation := validatorAnalyze currentText context
  { originalText := text, analysis := analysis, rewriting := rewriting,
    grammar := grammar, style := style, seo := seo,
    validation := validation, finalText := currentText,
    improvements := imps4 }

/-- The per-sentence quality contribution as the specification words it
(C7): `1.0` for word count in `[15,25]`, `0.7` for `[10,30]` outside
`[15,25]`, `0.3` otherwise. -/
def claimContrib (words : Nat) : ℚ :=
  if 15 ≤ words ∧ words ≤ 25 then 1
  else if 10 ≤ words ∧ words ≤ 30 then 7/10
  else 3/10

/-- The word count as the specification words it (C6): splitting on
runs of whitespace and counting only the non-empty tokens. -/
def specWordCount (text : String) : Nat :=
  ((jsSplit isWsChar text).filter (fun w => ¬ w = (""))).length

/-- The classifier as claim C6 states it, with the specification's
non-empty-token word count. -/
def classifyClaim (text : String) (ctx : Context) : String :=
  if specWordCount text < 100 then ("short")
  else if ctx.isWebPage then ("web")
  else if jsIncludes text ("meta") || jsIncludes text ("título") || jsIncludes text ("SEO") then ("web")
  else ("document")

/-- The classifier as claim C6 must be amended: the word count is the
full field count of `text.split(/\s+/)`, which includes an empty
leading (trailing) field when the text starts (ends) with
whitespace. -/
def classifyClaimAmended (text : String) (ctx : Context) : String :=
  if (jsSplit isWsChar text).length < 100 then ("short")
  else if ctx.isWebPage then ("web")
  else if jsIncludes text ("meta") || jsIncludes text ("título") || jsIncludes text ("SEO") then ("web")
  else ("document")

/-- The expected `onProgress` invocation sequence of one completing
`processText` run: stage name and status message, in order. -/
def trace7 : List (String × String) :=
  [(("analyzer"), ("Analizando texto...")),
   (("rewriter"), ("Reescribiendo con IA...")),
   (("grammar"), ("Revisando gramática...")),
   (("style"), ("Analizando estilo...")),
   (("seo"), ("Evaluando SEO...")),
   (("validator"), ("Validando resultados...")),
   (("done"), ("Análisis completado"))]

/-- Empty page metadata. -/
def md0 : Metadata := { title := Option.none, metaDescription := Option.none }

/-- Concrete options with a truthy API key. -/
def opts0 : Options := { apiKey := Option.some ("k"), metadata := md0 }

/-- A progress callback that never throws and keeps no state. -/
def cbOk : Unit → String → String → Except Empty Unit := fun s _ _ => Except.ok s

/-- A progress callback that records every invocation. -/
def cbTrace : List (String × String) → String → String → Except Empty (List (String × String)) :=
  fun s n m => Except.ok (s ++ [(n, m)])

/-- A progress callback that throws on every invocation. -/
def cbThrow : Unit → String → String → Except Unit Unit := fun _ _ _ => Except.error ()

/-- A concrete completing pipeline run (rewrite service answers
`"b c."`). -/
def run0 : Except (PipeErr Empty) (Results × Unit) :=
  processText (ApiResp.success ("b c.")) ("a.") opts0 cbOk ()

/-- The report of `run0`. -/
def r0 : Results :=
  match run0 with
  | Except.ok p => p.1
  | Except.error _ => buildResults ("") opts0 ("")

/-- A concrete completing run whose rewrite came back empty. -/
def runE : Except (PipeErr Empty) (Results × Unit) :=
  processText (ApiResp.success ("")) ("a.") opts0 cbOk ()

/-- The report of `runE`. -/
def rE : Results :=
  match runE with
  | Except.ok p => p.1
  | Except.error _ => buildResults ("") opts0 ("")

/-- One sentence of 75 one-letter words: its mean sentence length 75
drives the unclamped clarity formula to `-1`. -/
def t75 : String := String.intercalate (" ") (List.replicate 75 ("a")) ++ (".")

/-- A leading space followed by 99 one-letter words: 99 non-empty
tokens, but 100 fields in `text.split(/\s+/)`. -/
def t99 : String := (" ") ++ String.intercalate (" ") (List.replicate 99 ("a"))

/-- A non-web-page context (used where a claim quantifies over
arbitrary contexts). -/
def ctx99 : Context := { apiKey := Option.none, isWebPage := false, metadata := md0 }

/-- The Grammar-stage acceptance text of the specification (C8). -/
def t0grammar : String :=
  "Este es un texto. Este es un texto. Tiene palabras repetidas repetidas."

set_option maxRecDepth 40000

/-- A guarded push `if (l.length > 0) … .push(...l)` appends `l`
whether or not the guard fires. -/
lemma append_if_pos {α : Type} (a l : List α) : (if l.length > 0 then a ++ l else a) = a ++ l := by
  cases l with
  | nil => simp
  | cons x xs => simp

/-- Inversion for the Rewriter stage: a successful `analyze` call means
the service answered 2xx and the output is the success record. -/
lemma rewriterAnalyze_ok {api : ApiResp} {text : String} {ctx : Context} {rwo : RewriteOutput}
    (h : rewriterAnalyze api text ctx = Except.ok rwo) :
    ∃ content, api = ApiResp.success content ∧ rwo = rewriterOutput text content := by
  unfold rewriterAnalyze at h
  cases hk : ctx.apiKey with
  | none => simp only [hk] at h; exact Except.noConfusion h
  | some k =>
    simp only [hk] at h
    by_cases hke : k = ("")
    · rw [if_pos hke] at h; exact Except.noConfusion h
    · rw [if_neg hke] at h
      cases api with
      | failure st body => exact Except.noConfusion h
      | success content =>
        refine ⟨content, rfl, ?_⟩
        injection h with h2
        exact h2.symm

/-- Inversion for the coordinator: a completing `processText` run means
the service answered with some completion text, and the returned report
is the pure assembly `buildResults` of that text. -/
lemma processText_ok_shape {σ E : Type} {api : ApiResp} {text : String} {opts : Options}
    {cb : σ → String → String → Except E σ} {s0 : σ} {r : Results} {sF : σ}
    (h : processText api text opts cb s0 = Except.ok (r, sF)) :
    ∃ content, api = ApiResp.success content ∧ r = buildResults text opts content := by
  unfold processText at h
  cases h1 : cb s0 ("analyzer") ("Analizando texto...") with
  | error e => simp only [h1] at h; exact Except.noConfusion h
  | ok s1 =>
  simp only [h1] at h
  cases h2 : cb s1 ("rewriter") ("Reescribiendo con IA...") with
  | error e => simp only [h2] at h; exact Except.noConfusion h
  | ok s2 =>
  simp only [h2] at h
  cases hr : rewriterAnalyze api text (mkContext opts) with
  | error re => simp only [hr] at h; exact Except.noConfusion h
  | ok rwo =>
  simp only [hr] at h
  obtain ⟨content, hapi, hrwo⟩ := rewriterAnalyze_ok hr
  subst hapi
  subst hrwo
  cases h3 : cb s2 ("grammar") ("Revisando gramática...") with
  | error e => simp only [h3] at h; exact Except.noConfusion h
  | ok s3 =>
  simp only [h3] at h
  cases h4 : cb s3 ("style") ("Analizando estilo...") with
  | error e => simp only [h4] at h; exact Except.noConfusion h
  | ok s4 =>
  simp only [h4] at h
  cases h5 : cb s4 ("seo") ("Evaluando SEO...") with
  | error e => simp only [h5] at h; exact Except.noConfusion h
  | ok s5 =>
  simp only [h5] at h
  cases h6 : cb s5 ("validator") ("Validando resultados...") with
  | error e => simp only [h6] at h; exact Except.noConfusion h
  | ok s6 =>
  simp only [h6] at h
  cases h7 : cb s6 ("done") ("Análisis completado") with
  | error e => simp only [h7] at h; exact Except.noConfusion h
  | ok s7 =>
  simp only [h7] at h
  injection h with hp
  exact ⟨content, rfl, (congrArg Prod.fst hp).symm⟩

/-- Evaluation rule for `round2` when the scaled value is exact. -/
lemma round2_intCase (q : ℚ) (z : ℤ) (h : q * 100 = (z : ℚ)) : round2 q = (z : ℚ) / 100 := by
  unfold round2
  rw [h, round_intCast]

/-- `round2` keeps non-negative values non-negative. -/
lemma round2_nonneg {q : ℚ} (h : 0 ≤ q) : 0 ≤ round2 q := by
  unfold round2
  apply div_nonneg _ (by norm_num)
  have hz : (0:ℤ) ≤ round (q * 100) := by
    rw [round_eq]
    apply Int.floor_nonneg.mpr
    linarith
  exact_mod_cast hz

/-- `round2` keeps values at most `1` at most `1`. -/
lemma round2_le_one {q : ℚ} (h : q ≤ 1) : round2 q ≤ 1 := by
  unfold round2
  rw [div_le_one (by norm_num : (0:ℚ) < 100)]
  have hlt : round (q * 100) < 101 := by
    rw [round_eq, Int.floor_lt]
    push_cast
    linarith
  have hle : round (q * 100) ≤ 100 := by omega
  exact_mod_cast hle

/-- The code's per-sentence contribution coincides with the
specification's phrasing of it. -/
lemma qualityContrib_eq_claim (w : Nat) : qualityContrib w = claimContrib w := by
  unfold qualityContrib claimContrib
  by_cases h1 : 15 ≤ w ∧ w ≤ 25 <;> by_cases h2 : 10 ≤ w ∧ w ≤ 30 <;> simp [h1, h2] <;> omega

lemma qualityContrib_nonneg (w : Nat) : 0 ≤ qualityContrib w := by
  unfold qualityContrib
  split
  · split <;> norm_num
  · norm_num

lemma qualityContrib_le_one (w : Nat) : qualityContrib w ≤ 1 := by
  unfold qualityContrib
  split
  · split <;> norm_num
  · norm_num

/-- C1: a completing `processText` run reports `improvements` equal to
the concatenation, in stage-execution order, of the Rewriter's
improvements, the Grammar issues, the Style issues and the SEO
recommendations, with no deduplication and no reordering. -/
theorem processText_improvements_concat {σ E : Type} {api : ApiResp} {text : String}
    {opts : Options} {cb : σ → String → String → Except E σ} {s0 : σ} {r : Results} {sF : σ}
    (h : processText api text opts cb s0 = Except.ok (r, sF)) :
    r.improvements =
      r.rewriting.improvements ++ r.grammar.issues ++ r.style.styleIssues ++
        r.seo.seoRecommendations := by
  obtain ⟨content, -, rfl⟩ := processText_ok_shape h
  unfold buildResults
  simp only [append_if_pos]

/-- C1 witness: the concatenation shape evaluated on a concrete
completing run. -/
theorem processText_improvements_concat_witness :
    r0.improvements =
      r0.rewriting.improvements ++ r0.grammar.issues ++ r0.style.styleIssues ++
        r0.seo.seoRecommendations :=
  processText_improvements_concat
    (show processText (ApiResp.success ("b c.")) ("a.") opts0 cbOk () = Except.ok (r0, ()) from rfl)

/-- C2: a completing run invokes the progress callback exactly seven
times, with stage names `analyzer, rewriter, grammar, style, seo,
validator, done` in that order, whatever the input text and rewrite. -/
theorem processText_progress_sequence (content text key : String) (md : Metadata)
    (hk : ¬ key = ("")) :
    Except.map Prod.snd
      (processText (ApiResp.success content) text
        { apiKey := Option.some key, metadata := md } cbTrace []) =
      Except.ok trace7 := by
  unfold processText rewriterAnalyze mkContext cbTrace
  simp [hk, trace7, Except.map]

/-- C2 witness: the recorded trace of a concrete completing run. -/
theorem processText_progress_sequence_witness :
    Except.map Prod.snd
      (processText (ApiResp.success ("b c.")) ("a.")
        { apiKey := Option.some ("k"), metadata := md0 } cbTrace []) =
      Except.ok trace7 :=
  processText_progress_sequence ("b c.") ("a.") ("k") md0 (by decide)

/-- C3 (amended): the coordinator does *not* wrap `onProgress`; an
exception thrown by the very first callback invocation aborts the whole
run with that error, and no report is returned. -/
theorem processText_progress_throw_aborts {σ E : Type} {api : ApiResp} {text : String}
    {opts : Options} {cb : σ → String → String → Except E σ} {s0 : σ} {e : E}
    (h : cb s0 ("analyzer") ("Analizando texto...") = Except.error e) :
    processText api text opts cb s0 = Except.error (PipeErr.progress e) := by
  unfold processText
  simp only [h]

/-- C3 witness: a throwing callback aborts a run that would otherwise
have failed later in a different way. -/
theorem processText_progress_throw_aborts_witness :
    processText (ApiResp.failure 500 ("boom")) ("x.") opts0 cbThrow () =
      Except.error (PipeErr.progress ()) :=
  processText_progress_throw_aborts rfl

/-- C3 counterexample: with a healthy service and a valid key, a
throwing `onProgress` callback still makes `processText` fail — its
exception propagates as a pipeline failure, contradicting the claim
that callback exceptions never do. -/
theorem processText_progress_throw_counter :
    processText (ApiResp.success ("b c.")) ("a.") opts0 cbThrow () =
      Except.error (PipeErr.progress ()) := rfl

/-- Unfolding of `_assessClarityBalance` on a non-empty sentence list:
fixed `seoScore`/`balanceScore`, clarity clamped below at `0` only. -/
lemma assessClarityBalance_pos {text : String} (h : ¬ (splitSentences text).length = 0) :
    assessClarityBalance text =
      { seoScore := 7/10,
        clarityScore := round2 (max 0 (1 - (avgWordsRaw (splitSentences text) - 15) / 30)),
        balanceScore := 13/20 } := by
  simp only [assessClarityBalance]
  rw [if_neg h]

/-- C4 counterexample: on one 75-word sentence the code's clarity score
is `0` (the `Math.max(0, …)` lower clamp fires), while the claim's
unclamped formula demands `-1`. -/
theorem clarityScore_unclamped_counter :
    (assessClarityBalance t75).clarityScore = 0 ∧
      round2 (1 - (avgWordsRaw (splitSentences t75) - 15) / 30) = -1 := by
  have hm : (splitSentences t75).map wordCountRaw = [75] := by decide
  have hl : (splitSentences t75).length = 1 := by decide
  have havg : avgWordsRaw (splitSentences t75) = 75 := by
    unfold avgWordsRaw
    rw [hm, hl]
    norm_num
  have hraw : (1 - (avgWordsRaw (splitSentences t75) - 15) / 30 : ℚ) = -1 := by
    rw [havg]; norm_num
  constructor
  · rw [assessClarityBalance_pos (show ¬ (splitSentences t75).length = 0 from by decide)]
    show round2 (max 0 (1 - (avgWordsRaw (splitSentences t75) - 15) / 30)) = 0
    rw [hraw, max_eq_left (by norm_num : (-1 : ℚ) ≤ 0), round2_intCase 0 0 (by norm_num)]
    norm_num
  · rw [hraw, round2_intCase (-1 : ℚ) (-100) (by norm_num)]
    norm_num

/-- C4 (amended): for non-empty sentence lists the SEO balance is
`seoScore = 0.70`, `balanceScore = 0.65`, and
`clarityScore = round2(max(0, 1 - (avg - 15)/30))` — clamped below at
`0` but with no upper clamp, so it can exceed `1` but never drops
below `0`. -/
theorem clarityScore_formula (text : String) (h : ¬ splitSentences text = []) :
    assessClarityBalance text =
      { seoScore := 7/10,
        clarityScore := round2 (max 0 (1 - (avgWordsRaw (splitSentences text) - 15) / 30)),
        balanceScore := 13/20 } ∧
    0 ≤ (assessClarityBalance text).clarityScore := by
  have hlen : ¬ (splitSentences text).length = 0 := by
    simpa [List.length_eq_zero] using h
  refine ⟨assessClarityBalance_pos hlen, ?_⟩
  rw [assessClarityBalance_pos hlen]
  exact round2_nonneg (le_max_left 0 _)

/-- C4 witness: on `"a b c."` (mean sentence length 3) the clarity
score evaluates to `1.4`, above `1`, confirming the missing upper
clamp; the lower clamp keeps it non-negative. -/
theorem clarityScore_formula_witness :
    ¬ splitSentences ("a b c.") = [] ∧
      assessClarityBalance ("a b c.") =
        { seoScore := 7/10, clarityScore := 7/5, balanceScore := 13/20 } ∧
      (1 : ℚ) < (assessClarityBalance ("a b c.")).clarityScore := by
  have h1 : ¬ splitSentences ("a b c.") = [] := by decide
  have happ := (clarityScore_formula ("a b c.") h1).1
  have hm : (splitSentences ("a b c.")).map wordCountRaw = [3] := by decide
  have hl : (splitSentences ("a b c.")).length = 1 := by decide
  have havg : avgWordsRaw (splitSentences ("a b c.")) = 3 := by
    unfold avgWordsRaw
    rw [hm, hl]
    norm_num
  have hraw : (1 - (avgWordsRaw (splitSentences ("a b c.")) - 15) / 30 : ℚ) = 7/5 := by
    rw [havg]; norm_num
  have hrec : assessClarityBalance ("a b c.") =
      { seoScore := 7/10, clarityScore := 7/5, balanceScore := 13/20 } := by
    rw [happ, hraw, max_eq_right (by norm_num : (0 : ℚ) ≤ 7/5),
      round2_intCase (7/5 : ℚ) 140 (by norm_num)]
    norm_num
  exact ⟨h1, hrec, by rw [hrec]; norm_num⟩

/-- C5 counterexample: with one 5-word original sentence and one 2-word
rewritten sentence the mean drops by exactly 3 words — "at least 3
lower" — yet the code's strict `rewAvg < origAvg - 3` comparison emits
no finding at all. -/
theorem identifyImprovements_boundary_counter :
    identifyImprovements ("a b c d e.") ("a b.") = [] ∧
      avgOr1 (splitSentences ("a b c d e.")) - avgOr1 (splitSentences ("a b.")) = 3 := by
  have ho : (splitSentences ("a b c d e.")).map wordCountRaw = [5] := by decide
  have hol : (splitSentences ("a b c d e.")).length = 1 := by decide
  have hr : (splitSentences ("a b.")).map wordCountRaw = [2] := by decide
  have hrl : (splitSentences ("a b.")).length = 1 := by decide
  have hoa : avgOr1 (splitSentences ("a b c d e.")) = 5 := by
    unfold avgOr1
    rw [ho, hol]
    norm_num
  have hra : avgOr1 (splitSentences ("a b.")) = 2 := by
    unfold avgOr1
    rw [hr, hrl]
    norm_num
  constructor
  · simp only [identifyImprovements]
    rw [hol, hrl, hoa, hra]
    norm_num
  · rw [hoa, hra]
    norm_num

/-- C5 (amended): the Rewriter's post-hoc detection emits the
sentence-length-reduction finding (carrying both means rounded to one
decimal) iff the rewritten mean is *strictly more than* 3 words lower
than the original mean, and the structure finding iff the rewritten
text has strictly more sentences. -/
theorem identifyImprovements_conditions (original rewritten : String) (a b : ℚ) :
    (Finding.lengthReduction a b ("Mejor legibilidad con oraciones más cortas") ∈
        identifyImprovements original rewritten ↔
      (avgOr1 (splitSentences rewritten) < avgOr1 (splitSentences original) - 3 ∧
        a = round1 (avgOr1 (splitSentences original)) ∧
        b = round1 (avgOr1 (splitSentences rewritten)))) ∧
    (Finding.structureChange ("Oraciones divididas para mayor claridad")
        ("Una idea por oración (máximo 30 palabras)") ∈
        identifyImprovements original rewritten ↔
      (splitSentences rewritten).length > (splitSentences original).length) := by
  unfold identifyImprovements
  by_cases hs : (splitSentences rewritten).length > (splitSentences original).length <;>
    by_cases hl : avgOr1 (splitSentences rewritten) < avgOr1 (splitSentences original) - 3 <;>
      simp [hs, hl]

/-- C6 counterexample: a leading space before 99 one-letter words gives
99 non-empty tokens (so the claim demands `"short"`), but the code
counts the 100 split fields and classifies the non-web-page context as
`"document"`. -/
theorem classifier_wordCount_counter :
    classifyText t99 ctx99 = ("document") ∧ classifyClaim t99 ctx99 = ("short") ∧
      specWordCount t99 = 99 := by
  refine ⟨by decide, by decide, by decide⟩

/-- C6 (amended): the classifier behaves exactly as claimed once the
word count is read as the full `text.split(/\s+/)` field count, which
includes an empty boundary field for leading or trailing whitespace. -/
theorem classifier_wordCount_amended (text : String) (ctx : Context) :
    classifyText text ctx = classifyClaimAmended text ctx := rfl

/-- C7: the Validator quality score is `0` on an empty sentence list,
equals the rounded mean of the specification's per-sentence
contributions otherwise, and always lies in `[0,1]`. -/
theorem validator_qualityScore_props (text : String) :
    (0 ≤ calculateQualityScore text ∧ calculateQualityScore text ≤ 1) ∧
    (splitSentences text = [] → calculateQualityScore text = 0) ∧
    (¬ splitSentences text = [] →
      calculateQualityScore text =
        round2 ((((splitSentences text).map (fun s => claimContrib (wordCountTrim s))).sum) /
          ((splitSentences text).length : ℚ))) := by
  have hmap : (splitSentences text).map (fun s => qualityContrib (wordCountTrim s)) =
      (splitSentences text).map (fun s => claimContrib (wordCountTrim s)) := by
    simp only [qualityContrib_eq_claim]
  refine ⟨?_, ?_, ?_⟩
  · unfold calculateQualityScore
    by_cases h : (splitSentences text).length = 0
    · simp [h]
    · rw [if_neg h]
      have hlen : (0 : ℚ) < ((splitSentences text).length : ℚ) := by
        exact_mod_cast Nat.pos_of_ne_zero h
      have hsum_nonneg :
          0 ≤ ((splitSentences text).map (fun s => qualityContrib (wordCountTrim s))).sum := by
        apply List.sum_nonneg
        intro x hx
        obtain ⟨s, -, rfl⟩ := List.mem_map.mp hx
        exact qualityContrib_nonneg _
      have hsum_le :
          ((splitSentences text).map (fun s => qualityContrib (wordCountTrim s))).sum ≤
            ((splitSentences text).length : ℚ) := by
        have hb := List.sum_le_card_nsmul
          ((splitSentences text).map (fun s => qualityContrib (wordCountTrim s))) 1 ?_
        · simpa [List.length_map] using hb
        · intro x hx
          obtain ⟨s, -, rfl⟩ := List.mem_map.mp hx
          exact qualityContrib_le_one _
      constructor
      · exact round2_nonneg (div_nonneg hsum_nonneg hlen.le)
      · exact round2_le_one ((div_le_one hlen).mpr hsum_le)
  · intro h
    unfold calculateQualityScore
    simp [h]
  · intro h
    unfold calculateQualityScore
    rw [if_neg (by simpa [List.length_eq_zero] using h), hmap]

/-- C7 witness: the score evaluated on a one-word sentence. -/
theorem validator_qualityScore_witness :
    (calculateQualityScore ("a.") =
      round2 ((((splitSentences ("a.")).map (fun s => claimContrib (wordCountTrim s))).sum) /
        ((splitSentences ("a.")).length : ℚ))) ∧
    0 ≤ calculateQualityScore ("a.") ∧ calculateQualityScore ("a.") ≤ 1 :=
  ⟨(validator_qualityScore_props ("a.")).2.2 (by decide),
    (validator_qualityScore_props ("a.")).1.1,
    (validator_qualityScore_props ("a.")).1.2⟩

/-- C8: the Grammar stage always returns its input as `correctedText`,
and on the specification's acceptance text it reports exactly the
repeated pair `"repetidas repetidas"`. -/
theorem grammar_correctedText_id :
    (∀ (text : String) (ctx : Context), (grammarAnalyze text ctx).correctedText = text) ∧
    (grammarAnalyze t0grammar ctx99).issues =
      [Finding.grammarRep ("Palabras repetidas") [("repetidas repetidas")]
        ("Eliminar repeticiones innecesarias")] :=
  ⟨fun _ _ => rfl, by decide⟩

/-- C9: the coordinator hard-codes `isWebPage := true`, so a completing
run's classification is `"short"` or `"web"`, never `"document"`. -/
theorem processText_classification_never_document {σ E : Type} {api : ApiResp} {text : String}
    {opts : Options} {cb : σ → String → String → Except E σ} {s0 : σ} {r : Results} {sF : σ}
    (h : processText api text opts cb s0 = Except.ok (r, sF)) :
    r.analysis.classification = ("short") ∨ r.analysis.classification = ("web") := by
  obtain ⟨content, -, rfl⟩ := processText_ok_shape h
  unfold buildResults analyzerAnalyze classifyText mkContext
  by_cases hwc : wordCountRaw text < 100
  · left
    simp [hwc]
  · right
    simp [hwc]

/-- C9 witness: the classification of a concrete completing run. -/
theorem processText_classification_never_document_witness :
    r0.analysis.classification = ("short") ∨ r0.analysis.classification = ("web") :=
  processText_classification_never_document
    (show processText (ApiResp.success ("b c.")) ("a.") opts0 cbOk () = Except.ok (r0, ()) from rfl)

/-- C10: in a completing run the current text threaded to the Grammar,
Style, SEO and Validator stages, and the report's `finalText`, fall
back to the original input when the rewrite came back empty, and equal
the rewrite otherwise. -/
theorem processText_finalText_fallback {σ E : Type} {content text : String}
    {opts : Options} {cb : σ → String → String → Except E σ} {s0 : σ} {r : Results} {sF : σ}
    (h : processText (ApiResp.success content) text opts cb s0 = Except.ok (r, sF)) :
    r.finalText = (if content = ("") then text else content) ∧
    r.grammar = grammarAnalyze r.finalText (mkContext opts) ∧
    r.style = styleAnalyze r.finalText (mkContext opts) ∧
    r.seo = seoAnalyze r.finalText (mkContext opts) ∧
    r.validation = validatorAnalyze r.finalText (mkContext opts) := by
  obtain ⟨c, hapi, rfl⟩ := processText_ok_shape h
  injection hapi with hc
  subst hc
  exact ⟨rfl, rfl, rfl, rfl, rfl⟩

/-- C10 witness: a concrete run whose rewrite came back empty falls
back to the original text everywhere downstream. -/
theorem processText_finalText_fallback_witness :
    rE.finalText = (if ("") = ("") then ("a.") else ("")) ∧
    rE.grammar = grammarAnalyze rE.finalText (mkContext opts0) ∧
    rE.style = styleAnalyze rE.finalText (mkContext opts0) ∧
    rE.seo = seoAnalyze rE.finalText (mkContext opts0) ∧
    rE.validation = validatorAnalyze rE.finalText (mkContext opts0) :=
  processText_finalText_fallback
    (show processText (ApiResp.success ("")) ("a.") opts0 cbOk () = Except.ok (rE, ()) from rfl)
